import Mathlib

/-
Verification of the pdf_compressor pipeline (src/pdf_compressor/__init__.py).

The Python code orchestrates three external collaborators: the ImageMagick
rasterizer (invoked via subprocess), the PIL JPEG codec (compress_image) and
the img2pdf packer.  We model the run as explicit state passing over a
`World` (the temporary image files, the sequences written to the output
path, and whether the temporary directory was created), parameterised by an
`Env` that plays the role of the external collaborators: which pages the
rasterizer fails on, which raster files actually appear on disk, which
codec calls fail, and how many bytes `img2pdf.convert` produces for a given
snapshot of image files.

Machine integers do not overflow in the relevant Python code (Python ints
are unbounded), so page indices and qualities are `Int` and sizes are `ℚ`
(`os.path.getsize(...) / (1024 * 1024)`).  Fallible code returns
`Except PyError`; the final world is threaded alongside so that the state
at the moment an exception propagates is visible.  The `with
tempfile.TemporaryDirectory()` cleanup on scope exit is outside the
modelled state: `World.fs` is the state of the temporary files while the
run is in progress.
-/

namespace PdfCompressor

/-- Content of one temporary raster image file: the page it came from, the
rasterization dpi and quality (the `-density`/`-quality` flags of the
`magick` command), and the list of `(quality, optimize)` re-encode passes
applied to it in place by `compress_image`, in order. -/
structure ImgContent where
  page : Int
  dpi : Int
  rquality : Int
  passes : List (Int × Bool)
deriving DecidableEq, Repr

/-- The mutable state of one run: the temporary image files (an association
list from path to content), the ordered-image sequences written to the
output path so far, and whether the temporary directory has been created. -/
structure World where
  fs : List (String × ImgContent)
  writes : List (List String)
  tempDirCreated : Bool
deriving DecidableEq, Repr

/-- The exceptions compress_pdf can raise: `FileNotFoundError` and the
module's `CompressionError`, each carrying its message. -/
inductive PyError where
  | fileNotFound (msg : String)
  | compressionError (msg : String)
deriving DecidableEq, Repr

/-- The external collaborators, as oracles: whether the input exists,
whether ImageMagick is installed, the page count reported by `PdfReader`,
the generated temporary-directory name, which `magick` invocations raise a
`SubprocessError` (with which error text), which invocations actually
leave a file on disk, which `compress_image` calls fail (with which error
text), and the byte size `img2pdf.convert` produces from a snapshot of
image files. -/
structure Env where
  inputExists : Bool
  magickOk : Bool
  totalPages : Nat
  tempDirName : String
  rasterFails : Int → Bool
  rasterErr : Int → String
  rasterCreates : Int → Bool
  compressFails : String → Int → Bool
  compressErr : String → String
  convertBytes : List (String × ImgContent) → Nat

instance {ε α : Type} [DecidableEq ε] [DecidableEq α] : DecidableEq (Except ε α) := fun x y =>
  match x, y with
  | .error a, .error b => decidable_of_iff (a = b) (by simp)
  | .error _, .ok _ => isFalse (fun h => Except.noConfusion h)
  | .ok _, .error _ => isFalse (fun h => Except.noConfusion h)
  | .ok a, .ok b => decidable_of_iff (a = b) (by simp)

/-- Look a path up in the temporary file system (`os.path.exists` /
reading a file). -/
def lookupFs : List (String × ImgContent) → String → Option ImgContent
  | [], _ => none
  | (q, c) :: rest, p => if q = p then some c else lookupFs rest p

/-- Write a file: overwrite the entry if the path is present, append it
otherwise. -/
def setFs : List (String × ImgContent) → String → ImgContent → List (String × ImgContent)
  | [], p, c => [(p, c)]
  | (q, d) :: rest, p, c => if q = p then (p, c) :: rest else (q, d) :: setFs rest p c

/-- In-place JPEG re-encode of an existing file: record one more
`(quality, optimize)` pass on the entry at `p` (no other entry changes and
no entry is created). -/
def addPassFs : List (String × ImgContent) → String → Int × Bool → List (String × ImgContent)
  | [], _, _ => []
  | (q, d) :: rest, p, pr =>
    if q = p then (q, { d with passes := d.passes ++ [pr] }) :: rest
    else (q, d) :: addPassFs rest p pr

/-- The contents `img2pdf.convert` reads for an ordered path sequence. -/
def snapshot (fs : List (String × ImgContent)) (paths : List String) : List (String × ImgContent) :=
  paths.filterMap (fun p => (lookupFs fs p).map (fun c => (p, c)))

/-- The measured size `os.path.getsize(output_path) / (1024 * 1024)` for the document
assembled from the given paths: the byte count divided by 1024×1024, as an
exact rational (`mkRat n d` is the rational `n / d`). -/
def sizeMB (env : Env) (fs : List (String × ImgContent)) (paths : List String) : ℚ :=
  mkRat (env.convertBytes (snapshot fs paths) : Int) (1024 * 1024)

/-- Writing the output: `open(output_path)` in binary write mode followed by a write of `img2pdf.convert(paths)`:
record one more write of the ordered sequence to the output path. -/
def writeOutput (paths : List String) (w : World) : World :=
  { w with writes := w.writes ++ [paths] }

/-- The raster path `os.path.join(output_dir, "page_<i>.jpg")` for page `i`. -/
def pagePath (output_dir : String) (i : Int) : String :=
  output_dir ++ "/page_" ++ toString i ++ ".jpg"

/-- Python's `range(a, b)` over unbounded ints: `[a, a+1, ..., b-1]`,
empty when `b ≤ a`. -/
def pythonRange (a b : Int) : List Int :=
  (List.range (b - a).toNat).map (fun k : Nat => a + (k : Int))

/-- Python's `os.path.basename`. -/
def basename (p : String) : String :=
  (p.splitOn "/").getLastD p

/-- The function `check_dependencies`: probe `magick --version`. -/
def check_dependencies (env : Env) : Bool :=
  env.magickOk

/-- The function `compress_image(image_path, quality, optimize)`: decode and
re-encode the JPEG at `image_path` in place; on any codec error raise a
CompressionError whose message is "Failed to compress image ", the path, ": "
and the codec's error text. -/
def compress_image (env : Env) (image_path : String) (quality : Int) (optimize : Bool)
    (w : World) : Except PyError Unit × World :=
  if env.compressFails image_path quality then
    (.error (.compressionError
      ("Failed to compress image " ++ image_path ++ ": " ++ env.compressErr image_path)), w)
  else
    (.ok (), { w with fs := addPassFs w.fs image_path (quality, optimize) })

/-- The `for i in range(start_page, end_page)` loop body of
`convert_pdf_to_images`, over an explicit page list: invoke `magick` for
the page (a `SubprocessError` is re-raised as
a CompressionError whose message carries the page index and aborts the
loop); if the raster file exists afterwards, `compress_image` it at the
same quality and append it, otherwise skip the page silently. -/
def convertLoop (env : Env) (output_dir : String) (dpi quality : Int) :
    List Int → World → Except PyError (List String) × World
  | [], w => (.ok [], w)
  | i :: rest, w =>
    let output_image := pagePath output_dir i
    if env.rasterFails i then
      (.error (.compressionError
        ("Failed to convert page " ++ toString i ++ ": " ++ env.rasterErr i)), w)
    else
      let w1 := if env.rasterCreates i then
        { w with fs := setFs w.fs output_image ⟨i, dpi, quality, []⟩ }
      else w
      if (lookupFs w1.fs output_image).isSome then
        match compress_image env output_image quality true w1 with
        | (.error e, w2) => (.error e, w2)
        | (.ok _, w2) =>
          match convertLoop env output_dir dpi quality rest w2 with
          | (.error e, w3) => (.error e, w3)
          | (.ok imgs, w3) => (.ok (output_image :: imgs), w3)
      else
        convertLoop env output_dir dpi quality rest w1

/-- The function `convert_pdf_to_images(input_path, output_dir, start_page,
end_page, dpi, quality)`: an `end_page` of None defaults to the document's
page count; then run the loop over `range(start_page, end_page)`. -/
def convert_pdf_to_images (env : Env) (input_path output_dir : String)
    (start_page : Int) (end_page : Option Int) (dpi quality : Int)
    (w : World) : Except PyError (List String) × World :=
  let _ := input_path
  let e := end_page.getD (env.totalPages : Int)
  convertLoop env output_dir dpi quality (pythonRange start_page e) w

/-- The `for img_path in all_images` loop of the extreme pass:
`compress_image(img_path, quality=15, optimize=True)` on each image in
place, appending `img_path` itself to `extreme_images`.  The source also
binds `output` to a path under `temp_dir` made of the prefix "extreme_" and
the image's basename, but never uses it: no new file is created. -/
def extremeLoop (env : Env) (temp_dir : String) :
    List String → World → Except PyError (List String) × World
  | [], w => (.ok [], w)
  | img_path :: rest, w =>
    let _output := temp_dir ++ "/extreme_" ++ basename img_path
    match compress_image env img_path 15 true w with
    | (.error e, w1) => (.error e, w1)
    | (.ok _, w1) =>
      match extremeLoop env temp_dir rest w1 with
      | (.error e, w2) => (.error e, w2)
      | (.ok outs, w2) => (.ok (img_path :: outs), w2)

/-- The function `compress_pdf(input_path, output_path, target_size_mb,
important_pages, first_page_quality, remaining_quality, first_page_dpi,
remaining_dpi)`:
validate the input path and the ImageMagick dependency, create the
temporary directory, rasterize the important tier
(`range(0, min(important_pages, total_pages))`) and the remaining tier
(`range(important_pages, total_pages)`), reject an empty concatenation,
assemble and write the output, measure, and if over target run one extreme
pass (quality 15) over the same images and reassemble. -/
def compress_pdf (env : Env) (input_path output_path : String) (target_size_mb : ℚ)
    (important_pages first_page_quality remaining_quality first_page_dpi remaining_dpi : Int)
    (w : World) : Except PyError (Bool × ℚ) × World :=
  let _ := output_path
  if env.inputExists = false then
    (.error (.fileNotFound ("Input file not found: " ++ input_path)), w)
  else if check_dependencies env = false then
    (.error (.compressionError "ImageMagick is not installed. Please install it first."), w)
  else
    let temp_dir := env.tempDirName
    let w0 : World := { w with tempDirCreated := true }
    let total_pages : Int := (env.totalPages : Int)
    match convert_pdf_to_images env input_path temp_dir 0
        (some (min important_pages total_pages)) first_page_dpi first_page_quality w0 with
    | (.error e, we) => (.error e, we)
    | (.ok first_pages, w2) =>
      match convert_pdf_to_images env input_path temp_dir important_pages
          (some total_pages) remaining_dpi remaining_quality w2 with
      | (.error e, we) => (.error e, we)
      | (.ok remaining_pages, w3) =>
        let all_images := first_pages ++ remaining_pages
        if all_images.isEmpty then
          (.error (.compressionError "No images were created during conversion"), w3)
        else
          let w4 := writeOutput all_images w3
          let final_size := sizeMB env w4.fs all_images
          if final_size ≤ target_size_mb then
            (.ok (true, final_size), w4)
          else
            match extremeLoop env temp_dir all_images w4 with
            | (.error e, we) => (.error e, we)
            | (.ok extreme_images, w5) =>
              let w6 := writeOutput extreme_images w5
              let final_size2 := sizeMB env w5.fs extreme_images
              (.ok (decide (final_size2 ≤ target_size_mb), final_size2), w6)

/-- The page range `compress_pdf` requests for the important tier:
`range(0, min(important_pages, total_pages))`. -/
def importantRange (env : Env) (important_pages : Int) : List Int :=
  pythonRange 0 (min important_pages (env.totalPages : Int))

/-- The page range `compress_pdf` requests for the remaining tier:
`range(important_pages, total_pages)` (unclamped start). -/
def remainingRange (env : Env) (important_pages : Int) : List Int :=
  pythonRange important_pages (env.totalPages : Int)

/-- The pages of a requested range whose raster file actually appears on
disk (the pages `convert_pdf_to_images` keeps). -/
def createdPages (env : Env) (r : List Int) : List Int :=
  r.filter (fun i => env.rasterCreates i)

/-- The ordered image-path sequence a tier contributes to the reassembler. -/
def tierImages (env : Env) (r : List Int) : List String :=
  (createdPages env r).map (pagePath env.tempDirName)

/-! ### Concrete test environments, used to witness the theorems below -/

/-- The empty initial world: no temporary files, no writes, no temp dir. -/
def wEmpty : World := ⟨[], [], false⟩

/-- A fully healthy environment: 1-page document, every external call
succeeds, the assembled output is 0 bytes. -/
def envOk : Env where
  inputExists := true
  magickOk := true
  totalPages := 1
  tempDirName := "tmp"
  rasterFails := fun _ => false
  rasterErr := fun _ => "err"
  rasterCreates := fun _ => true
  compressFails := fun _ _ => false
  compressErr := fun _ => "err"
  convertBytes := fun _ => 0

/-- Like `envOk` but the assembled output is 10 MiB, so a run with a
small target goes through the extreme pass. -/
def envBig : Env :=
  { envOk with convertBytes := fun _ => 10485760 }

/-- Like `envOk` but with 3 pages and the rasterizer failing on page 1. -/
def envFail : Env :=
  { envOk with totalPages := 3, rasterFails := fun i => i == 1 }

/-- Like `envOk` but with 2 pages and page 1's raster file never
appearing on disk. -/
def envSkip : Env :=
  { envOk with totalPages := 2, rasterCreates := fun i => i == 0 }

/-- Like `envOk` but the input path does not exist. -/
def envNoInput : Env :=
  { envOk with inputExists := false }

/-- Like `envOk` but ImageMagick is not installed. -/
def envNoMagick : Env :=
  { envOk with magickOk := false }

/-- Like `envOk` but the document has zero pages. -/
def envZero : Env :=
  { envOk with totalPages := 0 }

/-! ### Helper lemmas -/

theorem mem_pythonRange {a b i : Int} : i ∈ pythonRange a b ↔ a ≤ i ∧ i < b := by
  unfold pythonRange
  rw [List.mem_map]
  constructor
  · rintro ⟨k, hk, hk2⟩
    rw [List.mem_range] at hk
    have : a + (k : Int) = i := hk2
    omega
  · rintro ⟨h1, h2⟩
    refine ⟨(i - a).toNat, ?_, ?_⟩
    · rw [List.mem_range]
      omega
    · show a + ((i - a).toNat : Int) = i
      omega

theorem pythonRange_pairwise (a b : Int) : (pythonRange a b).Pairwise (· < ·) := by
  unfold pythonRange
  refine List.Pairwise.map _ (fun x y (h : x < y) => ?_) (List.pairwise_lt_range _)
  show a + (x : Int) < a + (y : Int)
  omega

theorem pythonRange_nodup (a b : Int) : (pythonRange a b).Nodup :=
  (pythonRange_pairwise a b).imp (fun h => ne_of_lt h)

theorem lookupFs_setFs_self (fs : List (String × ImgContent)) (p : String) (c : ImgContent) :
    lookupFs (setFs fs p c) p = some c := by
  induction fs with
  | nil => simp [setFs, lookupFs]
  | cons hd tl ih =>
    obtain ⟨q, d⟩ := hd
    by_cases h : q = p <;> simp [setFs, lookupFs, h, ih]

theorem lookupFs_setFs_ne (fs : List (String × ImgContent)) (p q : String) (c : ImgContent)
    (h : q ≠ p) : lookupFs (setFs fs p c) q = lookupFs fs q := by
  induction fs with
  | nil => simp [setFs, lookupFs, Ne.symm h]
  | cons hd tl ih =>
    obtain ⟨r, d⟩ := hd
    by_cases hr : r = p
    · subst hr
      simp [setFs, lookupFs, Ne.symm h]
    · simp only [setFs, if_neg hr, lookupFs]
      by_cases hrq : r = q <;> simp [hrq, ih]

theorem lookupFs_addPassFs_self (fs : List (String × ImgContent)) (p : String) (pr : Int × Bool) :
    lookupFs (addPassFs fs p pr) p =
      (lookupFs fs p).map (fun c => { c with passes := c.passes ++ [pr] }) := by
  induction fs with
  | nil => simp [addPassFs, lookupFs]
  | cons hd tl ih =>
    obtain ⟨q, d⟩ := hd
    by_cases h : q = p <;> simp [addPassFs, lookupFs, h, ih]

theorem lookupFs_addPassFs_ne (fs : List (String × ImgContent)) (p q : String) (pr : Int × Bool)
    (h : q ≠ p) : lookupFs (addPassFs fs p pr) q = lookupFs fs q := by
  induction fs with
  | nil => simp [addPassFs, lookupFs]
  | cons hd tl ih =>
    obtain ⟨r, d⟩ := hd
    by_cases hr : r = p
    · subst hr
      simp [addPassFs, lookupFs, Ne.symm h]
    · simp only [addPassFs, if_neg hr, lookupFs]
      by_cases hrq : r = q <;> simp [hrq, ih]

theorem map_fst_addPassFs (fs : List (String × ImgContent)) (p : String) (pr : Int × Bool) :
    (addPassFs fs p pr).map Prod.fst = fs.map Prod.fst := by
  induction fs with
  | nil => rfl
  | cons hd tl ih =>
    obtain ⟨q, d⟩ := hd
    by_cases h : q = p <;> simp [addPassFs, h, ih]

theorem compress_image_world (env : Env) (p : String) (q : Int) (o : Bool) (w : World) :
    ((compress_image env p q o w).2.writes = w.writes ∧
      (compress_image env p q o w).2.tempDirCreated = w.tempDirCreated) := by
  unfold compress_image
  split <;> exact ⟨rfl, rfl⟩

theorem convertLoop_world_inv (env : Env) (dir : String) (dpi q : Int) :
    ∀ (L : List Int) (w : World),
      (convertLoop env dir dpi q L w).2.writes = w.writes ∧
      (convertLoop env dir dpi q L w).2.tempDirCreated = w.tempDirCreated := by
  intro L
  induction L with
  | nil => intro w; exact ⟨rfl, rfl⟩
  | cons i rest ih =>
    intro w
    simp only [convertLoop]
    split
    · exact ⟨rfl, rfl⟩
    · set w1 := if env.rasterCreates i then
        { w with fs := setFs w.fs (pagePath dir i) ⟨i, dpi, q, []⟩ }
      else w with hw1
      have hw1w : w1.writes = w.writes ∧ w1.tempDirCreated = w.tempDirCreated := by
        rw [hw1]; split <;> exact ⟨rfl, rfl⟩
      split
      · rcases hci : compress_image env (pagePath dir i) q true w1 with ⟨r, w2⟩
        have hci2 := compress_image_world env (pagePath dir i) q true w1
        rw [hci] at hci2
        cases r with
        | error e =>
          simp only [hci]
          exact ⟨hci2.1.trans hw1w.1, hci2.2.trans hw1w.2⟩
        | ok u =>
          simp only [hci]
          rcases hrec : convertLoop env dir dpi q rest w2 with ⟨r2, w3⟩
          have ihw := ih w2
          rw [hrec] at ihw
          cases r2 with
          | error e =>
            simp only [hrec]
            exact ⟨(ihw.1.trans hci2.1).trans hw1w.1, (ihw.2.trans hci2.2).trans hw1w.2⟩
          | ok imgs =>
            simp only [hrec]
            exact ⟨(ihw.1.trans hci2.1).trans hw1w.1, (ihw.2.trans hci2.2).trans hw1w.2⟩
      · have ihw := ih w1
        exact ⟨ihw.1.trans hw1w.1, ihw.2.trans hw1w.2⟩

theorem convert_pdf_to_images_some (env : Env) (input_path dir : String) (s e dpi q : Int)
    (w : World) :
    convert_pdf_to_images env input_path dir s (some e) dpi q w =
      convertLoop env dir dpi q (pythonRange s e) w := rfl

theorem extremeLoop_no_failures (env : Env) (temp_dir : String) :
    ∀ (L : List String) (w : World),
      (∀ p ∈ L, env.compressFails p 15 = false) → L.Nodup →
      ∃ w1, extremeLoop env temp_dir L w = (.ok L, w1) ∧
        w1.writes = w.writes ∧ w1.tempDirCreated = w.tempDirCreated ∧
        w1.fs.map Prod.fst = w.fs.map Prod.fst ∧
        (∀ p ∈ L, lookupFs w1.fs p =
          (lookupFs w.fs p).map (fun c => { c with passes := c.passes ++ [(15, true)] })) ∧
        (∀ p, p ∉ L → lookupFs w1.fs p = lookupFs w.fs p) := by
  intro L
  induction L with
  | nil =>
    intro w _ _
    exact ⟨w, rfl, rfl, rfl, rfl, by simp, fun p _ => rfl⟩
  | cons p rest ih =>
    intro w hcf hnd
    have hp : env.compressFails p 15 = false := hcf p (by simp)
    have hrest : ∀ r ∈ rest, env.compressFails r 15 = false :=
      fun r hr => hcf r (by simp [hr])
    have hpnot : p ∉ rest := (List.nodup_cons.mp hnd).1
    have hndr : rest.Nodup := (List.nodup_cons.mp hnd).2
    obtain ⟨w2, hrec, hwr, htd, hfst, hmem, hout⟩ :=
      ih { w with fs := addPassFs w.fs p (15, true) } hrest hndr
    refine ⟨w2, ?_, ?_, ?_, ?_, ?_, ?_⟩
    · simp only [extremeLoop, compress_image, hp, Bool.false_eq_true, if_false, hrec]
    · exact hwr
    · exact htd
    · exact hfst.trans (map_fst_addPassFs w.fs p (15, true))
    · intro r hr
      rcases List.mem_cons.mp hr with hr | hr
      · subst hr
        rw [hout r hpnot, lookupFs_addPassFs_self]
      · have hrp : r ≠ p := fun hh => hpnot (hh ▸ hr)
        rw [hmem r hr, lookupFs_addPassFs_ne _ _ _ _ hrp]
    · intro r hrn
      have h1 : r ≠ p := fun hh => hrn (hh ▸ List.mem_cons_self p rest)
      have h2 : r ∉ rest := fun hh => hrn (List.mem_cons_of_mem p hh)
      rw [hout r h2, lookupFs_addPassFs_ne _ _ _ _ h1]

theorem convertLoop_aborts (env : Env) (dir : String) (dpi q : Int) :
    ∀ (L1 : List Int) (j : Int) (L2 : List Int) (w w1 : World) (imgs : List String),
      convertLoop env dir dpi q L1 w = (.ok imgs, w1) →
      env.rasterFails j = true →
      convertLoop env dir dpi q (L1 ++ j :: L2) w =
        (.error (.compressionError
          ("Failed to convert page " ++ toString j ++ ": " ++ env.rasterErr j)), w1) := by
  intro L1
  induction L1 with
  | nil =>
    intro j L2 w w1 imgs h hj
    simp only [convertLoop] at h
    injection h with h1 h2
    subst h2
    simp only [List.nil_append, convertLoop, hj, if_true]
  | cons i rest ih =>
    intro j L2 w w1 imgs h hj
    rw [List.cons_append]
    simp only [convertLoop] at h ⊢
    split at h
    · exact absurd h (by simp)
    · next hrf =>
      rw [if_neg hrf]
      set W : World := if env.rasterCreates i = true then
        { w with fs := setFs w.fs (pagePath dir i) ⟨i, dpi, q, []⟩ } else w with hW
      by_cases hs : (lookupFs W.fs (pagePath dir i)).isSome = true
      · rw [if_pos hs] at h ⊢
        rcases hc : compress_image env (pagePath dir i) q true W with ⟨r, w2⟩
        rw [hc] at h
        cases r with
        | error e => exact absurd h (by simp)
        | ok u =>
          dsimp only at h ⊢
          rcases hr2 : convertLoop env dir dpi q rest w2 with ⟨r2, w3⟩
          rw [hr2] at h
          cases r2 with
          | error e => exact absurd h (by simp)
          | ok imgs2 =>
            simp only [Prod.mk.injEq, Except.ok.injEq] at h
            rw [ih j L2 w2 w3 imgs2 hr2 hj, h.2]
      · rw [if_neg hs] at h ⊢
        exact ih j L2 W w1 imgs h hj

theorem convertLoop_no_failures (env : Env) (dir : String) (dpi q : Int) :
    ∀ (L : List Int) (w : World),
      (∀ i ∈ L, env.rasterFails i = false) →
      (∀ i ∈ L, env.compressFails (pagePath dir i) q = false) →
      (∀ i ∈ L, lookupFs w.fs (pagePath dir i) = none) →
      (∀ i ∈ L, ∀ j ∈ L, pagePath dir i = pagePath dir j → i = j) →
      L.Nodup →
      ∃ w1, convertLoop env dir dpi q L w =
          (.ok ((L.filter (fun i => env.rasterCreates i)).map (pagePath dir)), w1) ∧
        w1.writes = w.writes ∧ w1.tempDirCreated = w.tempDirCreated ∧
        (∀ i ∈ L, env.rasterCreates i = true →
          lookupFs w1.fs (pagePath dir i) = some ⟨i, dpi, q, [(q, true)]⟩) ∧
        (∀ p : String, (∀ i ∈ L, env.rasterCreates i = true → p ≠ pagePath dir i) →
          lookupFs w1.fs p = lookupFs w.fs p) := by
  intro L
  induction L with
  | nil =>
    intro w _ _ _ _ _
    exact ⟨w, rfl, rfl, rfl, by simp, fun p _ => rfl⟩
  | cons i rest ih =>
    intro w hrf hcf hfresh hinj hnd
    have hrfi : env.rasterFails i = false := hrf i (by simp)
    have hcfi : env.compressFails (pagePath dir i) q = false := hcf i (by simp)
    have hinot : i ∉ rest := (List.nodup_cons.mp hnd).1
    have hndr : rest.Nodup := (List.nodup_cons.mp hnd).2
    have hrf' : ∀ j ∈ rest, env.rasterFails j = false := fun j hj => hrf j (by simp [hj])
    have hcf' : ∀ j ∈ rest, env.compressFails (pagePath dir j) q = false :=
      fun j hj => hcf j (by simp [hj])
    have hinj' : ∀ a ∈ rest, ∀ b ∈ rest, pagePath dir a = pagePath dir b → a = b :=
      fun a ha b hb => hinj a (by simp [ha]) b (by simp [hb])
    have hpne : ∀ j ∈ rest, pagePath dir j ≠ pagePath dir i := by
      intro j hj heq
      exact hinot ((hinj j (by simp [hj]) i (by simp) heq) ▸ hj)
    cases hcr : env.rasterCreates i with
    | true =>
      set fs2 : List (String × ImgContent) := addPassFs (setFs w.fs (pagePath dir i) ⟨i, dpi, q, []⟩) (pagePath dir i) (q, true) with hfs2
      set w2 : World := { w with fs := fs2 } with hw2
      have hfresh' : ∀ j ∈ rest, lookupFs w2.fs (pagePath dir j) = none := by
        intro j hj
        rw [hw2]
        show lookupFs (addPassFs _ _ _) _ = none
        rw [lookupFs_addPassFs_ne _ _ _ _ (hpne j hj),
          lookupFs_setFs_ne _ _ _ _ (hpne j hj)]
        exact hfresh j (by simp [hj])
      obtain ⟨w1, hloop, hwr, htd, hmem, hframe⟩ := ih w2 hrf' hcf' hfresh' hinj' hndr
      have hlook2 : lookupFs w2.fs (pagePath dir i) = some ⟨i, dpi, q, [(q, true)]⟩ := by
        rw [hw2]
        show lookupFs (addPassFs _ _ _) _ = _
        rw [lookupFs_addPassFs_self, lookupFs_setFs_self]
        rfl
      have hpne' : ∀ j ∈ rest, env.rasterCreates j = true → pagePath dir i ≠ pagePath dir j :=
        fun j hj _ heq => (hpne j hj) heq.symm
      refine ⟨w1, ?_, hwr, htd, ?_, ?_⟩
      · simp only [convertLoop, hrfi, Bool.false_eq_true, if_false, hcr, if_true,
          lookupFs_setFs_self, Option.isSome_some, compress_image, hcfi, List.filter_cons,
          hloop, List.map_cons]
      · intro j hj _
        rcases List.mem_cons.mp hj with hj | hj
        · subst hj
          rw [hframe (pagePath dir j) hpne', hlook2]
        · exact hmem j hj (by assumption)
      · intro p hp
        have hpi : p ≠ pagePath dir i := hp i (by simp) hcr
        have hp' : ∀ j ∈ rest, env.rasterCreates j = true → p ≠ pagePath dir j :=
          fun j hj hcj => hp j (by simp [hj]) hcj
        rw [hframe p hp', hw2]
        show lookupFs (addPassFs _ _ _) _ = _
        rw [lookupFs_addPassFs_ne _ _ _ _ hpi, lookupFs_setFs_ne _ _ _ _ hpi]
    | false =>
      have hlook : lookupFs w.fs (pagePath dir i) = none := hfresh i (by simp)
      have hfresh' : ∀ j ∈ rest, lookupFs w.fs (pagePath dir j) = none :=
        fun j hj => hfresh j (by simp [hj])
      obtain ⟨w1, hloop, hwr, htd, hmem, hframe⟩ := ih w hrf' hcf' hfresh' hinj' hndr
      refine ⟨w1, ?_, hwr, htd, ?_, ?_⟩
      · simp only [convertLoop, hrfi, Bool.false_eq_true, if_false, hcr, hlook,
          Option.isSome_none, List.filter_cons, hloop]
      · intro j hj hcj
        rcases List.mem_cons.mp hj with hj | hj
        · subst hj
          exact absurd hcj (by simp [hcr])
        · exact hmem j hj hcj
      · intro p hp
        exact hframe p (fun j hj hcj => hp j (by simp [hj]) hcj)

theorem convert_pdf_to_images_world_inv (env : Env) (input_path dir : String) (s : Int)
    (e : Option Int) (dpi q : Int) (w : World) :
    (convert_pdf_to_images env input_path dir s e dpi q w).2.writes = w.writes ∧
    (convert_pdf_to_images env input_path dir s e dpi q w).2.tempDirCreated =
      w.tempDirCreated := by
  unfold convert_pdf_to_images
  exact convertLoop_world_inv env dir dpi q _ w

theorem compress_pdf_run_under (env : Env) (input_path output_path : String)
    (target : ℚ) (ip fq rq fd rd : Int) (w w2 w3 : World)
    (first_pages remaining_pages : List String)
    (hin : env.inputExists = true) (hmag : env.magickOk = true)
    (hc1 : convert_pdf_to_images env input_path env.tempDirName 0
      (some (min ip (env.totalPages : Int))) fd fq { w with tempDirCreated := true } =
      (.ok first_pages, w2))
    (hc2 : convert_pdf_to_images env input_path env.tempDirName ip
      (some (env.totalPages : Int)) rd rq w2 = (.ok remaining_pages, w3))
    (hne : (first_pages ++ remaining_pages).isEmpty = false)
    (hsize : sizeMB env w3.fs (first_pages ++ remaining_pages) ≤ target) :
    compress_pdf env input_path output_path target ip fq rq fd rd w =
      (.ok (true, sizeMB env w3.fs (first_pages ++ remaining_pages)),
        writeOutput (first_pages ++ remaining_pages) w3) := by
  simp only [compress_pdf, hin, check_dependencies, hmag, Bool.true_eq_false,
    Bool.false_eq_true, if_false, hc1, hc2, hne, writeOutput]
  rw [if_pos hsize]

theorem compress_pdf_run_over (env : Env) (input_path output_path : String)
    (target : ℚ) (ip fq rq fd rd : Int) (w w2 w3 wx : World)
    (first_pages remaining_pages exts : List String)
    (hin : env.inputExists = true) (hmag : env.magickOk = true)
    (hc1 : convert_pdf_to_images env input_path env.tempDirName 0
      (some (min ip (env.totalPages : Int))) fd fq { w with tempDirCreated := true } =
      (.ok first_pages, w2))
    (hc2 : convert_pdf_to_images env input_path env.tempDirName ip
      (some (env.totalPages : Int)) rd rq w2 = (.ok remaining_pages, w3))
    (hne : (first_pages ++ remaining_pages).isEmpty = false)
    (hover : ¬ sizeMB env w3.fs (first_pages ++ remaining_pages) ≤ target)
    (hex : extremeLoop env env.tempDirName (first_pages ++ remaining_pages)
      (writeOutput (first_pages ++ remaining_pages) w3) = (.ok exts, wx)) :
    compress_pdf env input_path output_path target ip fq rq fd rd w =
      (.ok (decide (sizeMB env wx.fs exts ≤ target), sizeMB env wx.fs exts),
        writeOutput exts wx) := by
  simp only [writeOutput] at hex
  simp only [compress_pdf, hin, check_dependencies, hmag, Bool.true_eq_false,
    Bool.false_eq_true, if_false, hc1, hc2, hne, writeOutput]
  rw [if_neg hover, hex]

theorem compress_pdf_run_empty (env : Env) (input_path output_path : String)
    (target : ℚ) (ip fq rq fd rd : Int) (w w2 w3 : World)
    (first_pages remaining_pages : List String)
    (hin : env.inputExists = true) (hmag : env.magickOk = true)
    (hc1 : convert_pdf_to_images env input_path env.tempDirName 0
      (some (min ip (env.totalPages : Int))) fd fq { w with tempDirCreated := true } =
      (.ok first_pages, w2))
    (hc2 : convert_pdf_to_images env input_path env.tempDirName ip
      (some (env.totalPages : Int)) rd rq w2 = (.ok remaining_pages, w3))
    (hemp : first_pages ++ remaining_pages = []) :
    compress_pdf env input_path output_path target ip fq rq fd rd w =
      (.error (.compressionError "No images were created during conversion"), w3) := by
  simp only [compress_pdf, hin, check_dependencies, hmag, Bool.true_eq_false,
    Bool.false_eq_true, if_false, hc1, hc2, hemp, List.isEmpty_nil, if_true]

/-! ### Claims -/

/-- Claim C3: for all `important_pages ≥ 0` and `total_pages ≥ 0`, the important
tier requests exactly the page-index range `[0, min(important_pages, total_pages))`
and the remaining tier — invoked with the unclamped `start_page = important_pages` —
requests exactly `[min(important_pages, total_pages), total_pages)`; the two ranges
are disjoint and their union is `[0, total_pages)`. -/
theorem tier_ranges_partition (ip tp : Int) (hip : 0 ≤ ip) (htp : 0 ≤ tp) :
    (∀ i, i ∈ pythonRange 0 (min ip tp) ↔ 0 ≤ i ∧ i < min ip tp) ∧
    (∀ i, i ∈ pythonRange ip tp ↔ min ip tp ≤ i ∧ i < tp) ∧
    (∀ i, ¬ (i ∈ pythonRange 0 (min ip tp) ∧ i ∈ pythonRange ip tp)) ∧
    (∀ i, (i ∈ pythonRange 0 (min ip tp) ∨ i ∈ pythonRange ip tp) ↔ (0 ≤ i ∧ i < tp)) := by
  refine ⟨?_, ?_, ?_, ?_⟩ <;> intro i <;> simp only [mem_pythonRange] <;> omega

theorem tier_ranges_partition_witness :
    ((0:Int) ≤ 2 ∧ (0:Int) ≤ 5) ∧
    (((3:Int) ∈ pythonRange (2:Int) 5) ↔ min (2:Int) 5 ≤ 3 ∧ (3:Int) < 5) :=
  ⟨⟨by decide, by decide⟩, (tier_ranges_partition 2 5 (by decide) (by decide)).2.1 3⟩

/-- Claim C10: `compress_pdf` does not validate `important_pages ≥ 0`: for
`important_pages < 0` and `total_pages > 0` the important tier requests the empty
range `[0, important_pages)` while the remaining tier is passed the unclamped
`start_page = important_pages`, so its requested range
`[important_pages, total_pages)` contains negative page indices and the
tier-partition property of `[0, total_pages)` fails. -/
theorem negative_important_pages_breaks_partition (ip tp : Int) (hip : ip < 0)
    (htp : 0 < tp) :
    pythonRange 0 (min ip tp) = [] ∧
    (∀ i, i ∈ pythonRange ip tp ↔ ip ≤ i ∧ i < tp) ∧
    ip ∈ pythonRange ip tp ∧ ip < 0 ∧
    ¬ (∀ i, (i ∈ pythonRange 0 (min ip tp) ∨ i ∈ pythonRange ip tp) ↔ (0 ≤ i ∧ i < tp)) := by
  refine ⟨?_, fun i => mem_pythonRange, mem_pythonRange.mpr (by omega), hip, fun h => ?_⟩
  · unfold pythonRange
    have h0 : (min ip tp - 0).toNat = 0 := by omega
    rw [h0]
    rfl
  · have := (h ip).mp (Or.inr (mem_pythonRange.mpr (by omega)))
    omega

theorem negative_important_pages_breaks_partition_witness :
    ((-2:Int) < 0 ∧ (0:Int) < 3) ∧ pythonRange 0 (min (-2:Int) 3) = [] :=
  ⟨⟨by decide, by decide⟩,
    (negative_important_pages_breaks_partition (-2) 3 (by decide) (by decide)).1⟩

/-- Claim C5: if some page `j` of the requested range fails in the external
rasterization invocation (after a prefix `L1` of the range was processed
without failure, reaching world `w1`), then `convert_pdf_to_images` aborts as
a whole with a `CompressionError` whose message carries the page index `j` and
the underlying error text, and the resulting world is exactly `w1`: no page
after `j` in the range is processed. -/
theorem convert_pdf_to_images_aborts_on_page_failure (env : Env)
    (input_path dir : String) (s e dpi q : Int) (L1 L2 : List Int) (j : Int)
    (w w1 : World) (imgs : List String)
    (hsplit : pythonRange s e = L1 ++ j :: L2)
    (hpre : convertLoop env dir dpi q L1 w = (.ok imgs, w1))
    (hj : env.rasterFails j = true) :
    convert_pdf_to_images env input_path dir s (some e) dpi q w =
      (.error (.compressionError
        ("Failed to convert page " ++ toString j ++ ": " ++ env.rasterErr j)), w1) := by
  rw [convert_pdf_to_images_some, hsplit]
  exact convertLoop_aborts env dir dpi q L1 j L2 w w1 imgs hpre hj

theorem convert_pdf_to_images_aborts_on_page_failure_witness :
    envFail.rasterFails 1 = true ∧
    convert_pdf_to_images envFail "in.pdf" "tmp" 0 (some 3) 200 85 wEmpty =
      (.error (.compressionError
        ("Failed to convert page " ++ toString (1 : Int) ++ ": " ++ envFail.rasterErr 1)),
        ⟨[("tmp/page_0.jpg", ⟨0, 200, 85, [(85, true)]⟩)], [], false⟩) :=
  ⟨by decide,
    convert_pdf_to_images_aborts_on_page_failure envFail "in.pdf" "tmp" 0 3 200 85
      [0] [2] 1 wEmpty ⟨[("tmp/page_0.jpg", ⟨0, 200, 85, [(85, true)]⟩)], [], false⟩
      ["tmp/page_0.jpg"] (by decide) (by decide) (by decide)⟩

/-- Claim C6: when no external invocation fails on the requested range (and the
range's raster paths are fresh and distinct), `convert_pdf_to_images` succeeds
and returns, in range order, exactly the paths of the pages whose raster file
exists on disk (pages whose file is absent are skipped silently), and every
included page's file was re-compressed exactly once at the tier's own quality
(with optimize on). -/
theorem convert_pdf_to_images_keeps_existing (env : Env) (input_path dir : String)
    (s e dpi q : Int) (w : World)
    (hrf : ∀ i ∈ pythonRange s e, env.rasterFails i = false)
    (hcf : ∀ i ∈ pythonRange s e, env.compressFails (pagePath dir i) q = false)
    (hfresh : ∀ i ∈ pythonRange s e, lookupFs w.fs (pagePath dir i) = none)
    (hinj : ∀ i ∈ pythonRange s e, ∀ j ∈ pythonRange s e,
      pagePath dir i = pagePath dir j → i = j) :
    (convert_pdf_to_images env input_path dir s (some e) dpi q w).1 =
      .ok (((pythonRange s e).filter (fun i => env.rasterCreates i)).map (pagePath dir)) ∧
    (∀ i ∈ pythonRange s e, env.rasterCreates i = true →
      lookupFs (convert_pdf_to_images env input_path dir s (some e) dpi q w).2.fs
        (pagePath dir i) = some ⟨i, dpi, q, [(q, true)]⟩) := by
  obtain ⟨w1, hloop, _, _, hmem, _⟩ := convertLoop_no_failures env dir dpi q
    (pythonRange s e) w hrf hcf hfresh hinj (pythonRange_nodup s e)
  rw [convert_pdf_to_images_some, hloop]
  exact ⟨rfl, hmem⟩

theorem convert_pdf_to_images_keeps_existing_witness :
    (convert_pdf_to_images envSkip "in.pdf" "tmp" 0 (some 2) 35 25 wEmpty).1 =
      .ok (((pythonRange 0 2).filter (fun i => envSkip.rasterCreates i)).map (pagePath "tmp")) :=
  (convert_pdf_to_images_keeps_existing envSkip "in.pdf" "tmp" 0 2 35 25 wEmpty
    (by decide) (by decide) (by decide) (by decide)).1

/-- Claim C8: `compress_pdf` fails fast: if the input path does not exist it
raises `FileNotFoundError`, and otherwise, if the external rasterizer is
missing, it raises the missing-dependency `CompressionError`; in either case
the returned world is the initial world unchanged — no temporary directory or
temporary file is created and the output path is not written. -/
theorem compress_pdf_fail_fast (env : Env) (input_path output_path : String) (target : ℚ)
    (ip fq rq fd rd : Int) (w : World) :
    (env.inputExists = false →
      compress_pdf env input_path output_path target ip fq rq fd rd w =
        (.error (.fileNotFound ("Input file not found: " ++ input_path)), w)) ∧
    (env.inputExists = true → env.magickOk = false →
      compress_pdf env input_path output_path target ip fq rq fd rd w =
        (.error (.compressionError "ImageMagick is not installed. Please install it first."),
          w)) := by
  constructor
  · intro h
    simp only [compress_pdf, h, if_true]
  · intro h1 h2
    simp only [compress_pdf, h1, Bool.true_eq_false, if_false, check_dependencies, h2, if_true]

theorem compress_pdf_fail_fast_witness :
    (compress_pdf envNoInput "missing.pdf" "out.pdf" 1 5 85 25 200 35 wEmpty =
      (.error (.fileNotFound ("Input file not found: " ++ "missing.pdf")), wEmpty)) ∧
    (compress_pdf envNoMagick "in.pdf" "out.pdf" 1 5 85 25 200 35 wEmpty =
      (.error (.compressionError "ImageMagick is not installed. Please install it first."),
        wEmpty)) :=
  ⟨(compress_pdf_fail_fast envNoInput "missing.pdf" "out.pdf" 1 5 85 25 200 35 wEmpty).1 rfl,
    (compress_pdf_fail_fast envNoMagick "in.pdf" "out.pdf" 1 5 85 25 200 35 wEmpty).2 rfl rfl⟩

/-- Claim C2: if the first-pass output size is at most `target_size_mb`,
`compress_pdf` returns `(true, measured_size)` and no extreme pass occurs: the
final file system is exactly the post-first-pass one (no image file is
re-compressed a second time) and the output path is written exactly once (not
rewritten). -/
theorem compress_pdf_under_target_no_extreme (env : Env) (input_path output_path : String)
    (target : ℚ) (ip fq rq fd rd : Int) (w w2 w3 : World)
    (first_pages remaining_pages : List String)
    (hin : env.inputExists = true) (hmag : env.magickOk = true)
    (hc1 : convert_pdf_to_images env input_path env.tempDirName 0
      (some (min ip (env.totalPages : Int))) fd fq { w with tempDirCreated := true } =
      (.ok first_pages, w2))
    (hc2 : convert_pdf_to_images env input_path env.tempDirName ip
      (some (env.totalPages : Int)) rd rq w2 = (.ok remaining_pages, w3))
    (hne : (first_pages ++ remaining_pages).isEmpty = false)
    (hsize : sizeMB env w3.fs (first_pages ++ remaining_pages) ≤ target) :
    compress_pdf env input_path output_path target ip fq rq fd rd w =
      (.ok (true, sizeMB env w3.fs (first_pages ++ remaining_pages)),
        writeOutput (first_pages ++ remaining_pages) w3) ∧
    (writeOutput (first_pages ++ remaining_pages) w3).fs = w3.fs ∧
    (writeOutput (first_pages ++ remaining_pages) w3).writes =
      w.writes ++ [first_pages ++ remaining_pages] := by
  have h1 := convert_pdf_to_images_world_inv env input_path env.tempDirName 0
    (some (min ip (env.totalPages : Int))) fd fq { w with tempDirCreated := true }
  have h2 := convert_pdf_to_images_world_inv env input_path env.tempDirName ip
    (some (env.totalPages : Int)) rd rq w2
  rw [hc1] at h1
  rw [hc2] at h2
  have hw3w : w3.writes = w.writes := h2.1.trans h1.1
  exact ⟨compress_pdf_run_under env input_path output_path target ip fq rq fd rd w w2 w3
    first_pages remaining_pages hin hmag hc1 hc2 hne hsize, rfl,
    by simp [writeOutput, hw3w]⟩

theorem compress_pdf_under_target_no_extreme_witness :
    compress_pdf envOk "in.pdf" "out.pdf" 1 5 85 25 200 35 wEmpty =
      (.ok (true, sizeMB envOk
          (⟨[("tmp/page_0.jpg", ⟨0, 200, 85, [(85, true)]⟩)], [], true⟩ : World).fs
          (["tmp/page_0.jpg"] ++ [])),
        writeOutput (["tmp/page_0.jpg"] ++ [])
          ⟨[("tmp/page_0.jpg", ⟨0, 200, 85, [(85, true)]⟩)], [], true⟩) :=
  (compress_pdf_under_target_no_extreme envOk "in.pdf" "out.pdf" 1 5 85 25 200 35 wEmpty
    ⟨[("tmp/page_0.jpg", ⟨0, 200, 85, [(85, true)]⟩)], [], true⟩
    ⟨[("tmp/page_0.jpg", ⟨0, 200, 85, [(85, true)]⟩)], [], true⟩
    ["tmp/page_0.jpg"] [] rfl rfl (by decide) (by decide) (by decide) (by decide)).1

/-- Claim C7 (amended): if the concatenated image sequence of both tiers is
empty (in particular when `total_pages = 0`), `compress_pdf` raises a
`CompressionError` before reassembly — with the message "No images were
created during conversion" (not the spec's quoted "no images were produced")
— and no output document is written to the output path (the write list is
unchanged). -/
theorem compress_pdf_empty_images (env : Env) (input_path output_path : String)
    (target : ℚ) (ip fq rq fd rd : Int) (w w2 w3 : World)
    (first_pages remaining_pages : List String)
    (hin : env.inputExists = true) (hmag : env.magickOk = true)
    (hc1 : convert_pdf_to_images env input_path env.tempDirName 0
      (some (min ip (env.totalPages : Int))) fd fq { w with tempDirCreated := true } =
      (.ok first_pages, w2))
    (hc2 : convert_pdf_to_images env input_path env.tempDirName ip
      (some (env.totalPages : Int)) rd rq w2 = (.ok remaining_pages, w3))
    (hemp : first_pages ++ remaining_pages = []) :
    compress_pdf env input_path output_path target ip fq rq fd rd w =
      (.error (.compressionError "No images were created during conversion"), w3) ∧
    w3.writes = w.writes := by
  have h1 := convert_pdf_to_images_world_inv env input_path env.tempDirName 0
    (some (min ip (env.totalPages : Int))) fd fq { w with tempDirCreated := true }
  have h2 := convert_pdf_to_images_world_inv env input_path env.tempDirName ip
    (some (env.totalPages : Int)) rd rq w2
  rw [hc1] at h1
  rw [hc2] at h2
  exact ⟨compress_pdf_run_empty env input_path output_path target ip fq rq fd rd w w2 w3
    first_pages remaining_pages hin hmag hc1 hc2 hemp, h2.1.trans h1.1⟩

/-- Claim C7, as stated, fails at a concrete input: with a zero-page
document the run does abort before reassembly and writes nothing, but the
`CompressionError` message is "No images were created during conversion",
not the claimed "no images were produced". -/
theorem compress_pdf_empty_images_counterexample :
    compress_pdf envZero "in.pdf" "out.pdf" 1 5 85 25 200 35 wEmpty =
      (.error (.compressionError "No images were created during conversion"),
        (⟨[], [], true⟩ : World)) ∧
    "No images were created during conversion" ≠ "no images were produced" :=
  ⟨by decide, by decide⟩

theorem compress_pdf_empty_images_witness :
    compress_pdf envZero "in.pdf" "out.pdf" 1 5 85 25 200 35 wEmpty =
      (.error (.compressionError "No images were created during conversion"),
        (⟨[], [], true⟩ : World)) ∧
    (⟨[], [], true⟩ : World).writes = wEmpty.writes :=
  compress_pdf_empty_images envZero "in.pdf" "out.pdf" 1 5 85 25 200 35 wEmpty
    ⟨[], [], true⟩ ⟨[], [], true⟩ [] [] rfl rfl (by decide) (by decide) rfl

/-- Claim C1: if the first assembled output's measured size exceeds
`target_size_mb`, `compress_pdf` performs exactly one extreme pass: it
re-invokes the image compressor on every image of the first-pass ordered
sequence at fixed quality 15 with optimize enabled, mutating the same files in
place (the set of image files is unchanged), reassembles the same ordered
sequence to overwrite the output path (a second and final write), and then
returns normally with no further escalation attempt. -/
theorem compress_pdf_extreme_pass (env : Env) (input_path output_path : String)
    (target : ℚ) (ip fq rq fd rd : Int) (w w2 w3 wx : World)
    (first_pages remaining_pages exts : List String)
    (hin : env.inputExists = true) (hmag : env.magickOk = true)
    (hc1 : convert_pdf_to_images env input_path env.tempDirName 0
      (some (min ip (env.totalPages : Int))) fd fq { w with tempDirCreated := true } =
      (.ok first_pages, w2))
    (hc2 : convert_pdf_to_images env input_path env.tempDirName ip
      (some (env.totalPages : Int)) rd rq w2 = (.ok remaining_pages, w3))
    (hne : (first_pages ++ remaining_pages).isEmpty = false)
    (hover : ¬ sizeMB env w3.fs (first_pages ++ remaining_pages) ≤ target)
    (hnd : (first_pages ++ remaining_pages).Nodup)
    (hcf : ∀ p ∈ first_pages ++ remaining_pages, env.compressFails p 15 = false)
    (hex : extremeLoop env env.tempDirName (first_pages ++ remaining_pages)
      (writeOutput (first_pages ++ remaining_pages) w3) = (.ok exts, wx)) :
    exts = first_pages ++ remaining_pages ∧
    compress_pdf env input_path output_path target ip fq rq fd rd w =
      (.ok (decide (sizeMB env wx.fs exts ≤ target), sizeMB env wx.fs exts),
        writeOutput exts wx) ∧
    wx.writes = w.writes ++ [first_pages ++ remaining_pages] ∧
    (writeOutput exts wx).writes = w.writes ++ [first_pages ++ remaining_pages, exts] ∧
    wx.fs.map Prod.fst = w3.fs.map Prod.fst ∧
    (∀ p ∈ first_pages ++ remaining_pages, lookupFs wx.fs p =
      (lookupFs w3.fs p).map (fun c => { c with passes := c.passes ++ [(15, true)] })) ∧
    (∀ p, p ∉ first_pages ++ remaining_pages → lookupFs wx.fs p = lookupFs w3.fs p) := by
  have h1 := convert_pdf_to_images_world_inv env input_path env.tempDirName 0
    (some (min ip (env.totalPages : Int))) fd fq { w with tempDirCreated := true }
  have h2 := convert_pdf_to_images_world_inv env input_path env.tempDirName ip
    (some (env.totalPages : Int)) rd rq w2
  rw [hc1] at h1
  rw [hc2] at h2
  have hw3w : w3.writes = w.writes := h2.1.trans h1.1
  obtain ⟨w1, hloop, hwr, htd, hfst, hmem, hout⟩ := extremeLoop_no_failures env
    env.tempDirName (first_pages ++ remaining_pages)
    (writeOutput (first_pages ++ remaining_pages) w3) hcf hnd
  have heq := hloop.symm.trans hex
  injection heq with heq1 heq2
  injection heq1 with heq1
  rw [heq2] at hwr hfst hmem hout
  refine ⟨heq1.symm, compress_pdf_run_over env input_path output_path target ip fq rq fd rd
    w w2 w3 wx first_pages remaining_pages exts hin hmag hc1 hc2 hne hover hex, ?_, ?_,
    hfst, hmem, hout⟩
  · rw [hwr]
    simp [writeOutput, hw3w]
  · simp only [writeOutput] at hwr ⊢
    rw [hwr]
    simp [hw3w, heq1]

theorem compress_pdf_extreme_pass_witness :
    compress_pdf envBig "in.pdf" "out.pdf" 1 5 85 25 200 35 wEmpty =
      (.ok (decide (sizeMB envBig
            (⟨[("tmp/page_0.jpg", ⟨0, 200, 85, [(85, true), (15, true)]⟩)],
              [["tmp/page_0.jpg"]], true⟩ : World).fs ["tmp/page_0.jpg"] ≤ 1),
          sizeMB envBig
            (⟨[("tmp/page_0.jpg", ⟨0, 200, 85, [(85, true), (15, true)]⟩)],
              [["tmp/page_0.jpg"]], true⟩ : World).fs ["tmp/page_0.jpg"]),
        writeOutput ["tmp/page_0.jpg"]
          ⟨[("tmp/page_0.jpg", ⟨0, 200, 85, [(85, true), (15, true)]⟩)],
            [["tmp/page_0.jpg"]], true⟩) :=
  (compress_pdf_extreme_pass envBig "in.pdf" "out.pdf" 1 5 85 25 200 35 wEmpty
    ⟨[("tmp/page_0.jpg", ⟨0, 200, 85, [(85, true)]⟩)], [], true⟩
    ⟨[("tmp/page_0.jpg", ⟨0, 200, 85, [(85, true)]⟩)], [], true⟩
    ⟨[("tmp/page_0.jpg", ⟨0, 200, 85, [(85, true), (15, true)]⟩)],
      [["tmp/page_0.jpg"]], true⟩
    ["tmp/page_0.jpg"] [] ["tmp/page_0.jpg"] rfl rfl (by decide) (by decide) (by decide)
    (by decide) (by decide) (by decide) (by decide)).2.1

/-- Claim C4: on every normal (non-raising) return of `compress_pdf`, the
returned pair `(success, final_size)` satisfies
`success = decide (final_size ≤ target_size_mb)`, where `final_size` is the
measured size — the output file's byte count divided by 1024×1024 — of the
sequence last written to the output path in the final world. -/
theorem compress_pdf_success_iff_under_target (env : Env) (input_path output_path : String)
    (target : ℚ) (ip fq rq fd rd : Int) (w : World) (b : Bool) (s : ℚ) (wf : World)
    (h : compress_pdf env input_path output_path target ip fq rq fd rd w =
      (.ok (b, s), wf)) :
    b = decide (s ≤ target) ∧ s = sizeMB env wf.fs (wf.writes.getLastD []) := by
  simp only [compress_pdf] at h
  split at h
  · exact absurd h (by simp)
  · split at h
    · exact absurd h (by simp)
    · split at h
      · exact absurd h (by simp)
      · split at h
        · exact absurd h (by simp)
        · split at h
          · exact absurd h (by simp)
          · split at h
            · next hle =>
              simp only [Prod.mk.injEq, Except.ok.injEq] at h
              obtain ⟨⟨hb, hs⟩, hwf⟩ := h
              subst hb
              subst hs
              subst hwf
              refine ⟨(decide_eq_true hle).symm, ?_⟩
              simp [writeOutput, List.getLastD_concat]
            · split at h
              · exact absurd h (by simp)
              · simp only [Prod.mk.injEq, Except.ok.injEq] at h
                obtain ⟨⟨hb, hs⟩, hwf⟩ := h
                subst hb
                subst hs
                subst hwf
                refine ⟨rfl, ?_⟩
                simp [writeOutput, List.getLastD_concat]

theorem compress_pdf_success_iff_under_target_witness :
    (true : Bool) = decide ((0 : ℚ) ≤ 1) ∧
    (0 : ℚ) = sizeMB envOk
      (⟨[("tmp/page_0.jpg", ⟨0, 200, 85, [(85, true)]⟩)], [["tmp/page_0.jpg"]],
        true⟩ : World).fs
      ((⟨[("tmp/page_0.jpg", ⟨0, 200, 85, [(85, true)]⟩)], [["tmp/page_0.jpg"]],
        true⟩ : World).writes.getLastD []) :=
  compress_pdf_success_iff_under_target envOk "in.pdf" "out.pdf" 1 5 85 25 200 35 wEmpty
    true 0 ⟨[("tmp/page_0.jpg", ⟨0, 200, 85, [(85, true)]⟩)], [["tmp/page_0.jpg"]], true⟩
    (by decide)

/-- Claim C9: under the stated health assumptions, the ordered image sequence
passed to the reassembler — in the first pass and, when it occurs, in the
extreme pass — is always the important-tier sequence followed by the
remaining-tier sequence; the underlying page indices are pairwise strictly
increasing across the concatenation (each tier ascending, and every
important-tier page before every remaining-tier page), so original page order
is preserved in the output. -/
theorem reassembler_preserves_page_order (env : Env) (input_path output_path : String)
    (target : ℚ) (ip fq rq fd rd : Int) (w : World)
    (hin : env.inputExists = true) (hmag : env.magickOk = true)
    (hrf : ∀ i ∈ importantRange env ip ++ remainingRange env ip,
      env.rasterFails i = false)
    (hcf1 : ∀ i ∈ importantRange env ip,
      env.compressFails (pagePath env.tempDirName i) fq = false)
    (hcf2 : ∀ i ∈ remainingRange env ip,
      env.compressFails (pagePath env.tempDirName i) rq = false)
    (hcf15 : ∀ i ∈ importantRange env ip ++ remainingRange env ip,
      env.compressFails (pagePath env.tempDirName i) 15 = false)
    (hfresh : ∀ i ∈ importantRange env ip ++ remainingRange env ip,
      lookupFs w.fs (pagePath env.tempDirName i) = none)
    (hinj : ∀ i ∈ importantRange env ip ++ remainingRange env ip,
      ∀ j ∈ importantRange env ip ++ remainingRange env ip,
      pagePath env.tempDirName i = pagePath env.tempDirName j → i = j) :
    List.Pairwise (· < ·)
      (createdPages env (importantRange env ip) ++ createdPages env (remainingRange env ip)) ∧
    ∀ (b : Bool) (s : ℚ) (wf : World),
      compress_pdf env input_path output_path target ip fq rq fd rd w = (.ok (b, s), wf) →
      (wf.writes = w.writes ++
        [tierImages env (importantRange env ip) ++ tierImages env (remainingRange env ip)] ∨
       wf.writes = w.writes ++
        [tierImages env (importantRange env ip) ++ tierImages env (remainingRange env ip),
         tierImages env (importantRange env ip) ++ tierImages env (remainingRange env ip)]) := by
  set T : Int := (env.totalPages : Int) with hT
  set dir : String := env.tempDirName with hdir
  have hmemR1 : ∀ i ∈ importantRange env ip, 0 ≤ i ∧ i < min ip T := by
    intro i hi
    exact mem_pythonRange.mp hi
  have hmemR2 : ∀ i ∈ remainingRange env ip, ip ≤ i ∧ i < T := by
    intro i hi
    exact mem_pythonRange.mp hi
  have hcross : ∀ a ∈ createdPages env (importantRange env ip),
      ∀ c ∈ createdPages env (remainingRange env ip), a < c := by
    intro a ha c hc
    have ha1 := hmemR1 a (List.mem_filter.mp ha).1
    have hc1 := hmemR2 c (List.mem_filter.mp hc).1
    omega
  have hpw : List.Pairwise (· < ·)
      (createdPages env (importantRange env ip) ++ createdPages env (remainingRange env ip)) := by
    refine List.pairwise_append.mpr ⟨?_, ?_, hcross⟩
    · exact (pythonRange_pairwise 0 (min ip T)).filter _
    · exact (pythonRange_pairwise ip T).filter _
  refine ⟨hpw, ?_⟩
  intro b s wf h
  -- first tier
  obtain ⟨w2, hloop1, hwr2, htd2, hmem2, hframe2⟩ := convertLoop_no_failures env dir fd fq
    (importantRange env ip) { w with tempDirCreated := true }
    (fun i hi => hrf i (List.mem_append_left _ hi))
    hcf1 (fun i hi => hfresh i (List.mem_append_left _ hi))
    (fun i hi j hj => hinj i (List.mem_append_left _ hi) j (List.mem_append_left _ hj))
    (pythonRange_nodup 0 (min ip T))
  have hc1 : convert_pdf_to_images env input_path dir 0 (some (min ip T)) fd fq
      { w with tempDirCreated := true } =
      (.ok (tierImages env (importantRange env ip)), w2) := by
    rw [convert_pdf_to_images_some]
    exact hloop1
  -- distinct tiers have distinct pages, hence distinct fresh paths
  have hdisj : ∀ i ∈ remainingRange env ip, ∀ j ∈ importantRange env ip,
      env.rasterCreates j = true → pagePath dir i ≠ pagePath dir j := by
    intro i hi j hj _ heq
    have hij := hinj i (List.mem_append_right _ hi) j (List.mem_append_left _ hj) heq
    have h1 := hmemR1 j hj
    have h2 := hmemR2 i hi
    omega
  -- second tier
  obtain ⟨w3, hloop2, hwr3, htd3, hmem3, hframe3⟩ := convertLoop_no_failures env dir rd rq
    (remainingRange env ip) w2
    (fun i hi => hrf i (List.mem_append_right _ hi))
    hcf2
    (fun i hi => by
      rw [hframe2 (pagePath dir i) (hdisj i hi)]
      exact hfresh i (List.mem_append_right _ hi))
    (fun i hi j hj => hinj i (List.mem_append_right _ hi) j (List.mem_append_right _ hj))
    (pythonRange_nodup ip T)
  have hc2 : convert_pdf_to_images env input_path dir ip (some T) rd rq w2 =
      (.ok (tierImages env (remainingRange env ip)), w3) := by
    rw [convert_pdf_to_images_some]
    exact hloop2
  set imgs : List String :=
    tierImages env (importantRange env ip) ++ tierImages env (remainingRange env ip)
    with himgs
  have hw3w : w3.writes = w.writes := by
    rw [hwr3, hwr2]
  by_cases hempty : imgs = []
  · have hrun := compress_pdf_run_empty env input_path output_path target ip fq rq fd rd
      w w2 w3 _ _ hin hmag hc1 hc2 hempty
    rw [hrun] at h
    exact absurd h (by simp)
  · have hne : imgs.isEmpty = false := by
      simpa [List.isEmpty_iff] using hempty
    by_cases hsz : sizeMB env w3.fs imgs ≤ target
    · have hrun := compress_pdf_run_under env input_path output_path target ip fq rq fd rd
        w w2 w3 _ _ hin hmag hc1 hc2 hne hsz
      rw [hrun] at h
      injection h with h1 h2
      left
      rw [← h2]
      simp [writeOutput, hw3w]
    · -- extreme pass
      have hpages : imgs = (createdPages env (importantRange env ip) ++
          createdPages env (remainingRange env ip)).map (pagePath dir) := by
        rw [himgs]
        simp [tierImages, List.map_append]
      have hndimgs : imgs.Nodup := by
        rw [hpages]
        refine List.Nodup.map_on ?_ (hpw.imp (fun hlt => ne_of_lt hlt))
        intro x hx y hy hxy
        rcases List.mem_append.mp hx with hx1 | hx1 <;>
          rcases List.mem_append.mp hy with hy1 | hy1
        · exact hinj x (List.mem_append_left _ (List.mem_filter.mp hx1).1)
            y (List.mem_append_left _ (List.mem_filter.mp hy1).1) hxy
        · exact hinj x (List.mem_append_left _ (List.mem_filter.mp hx1).1)
            y (List.mem_append_right _ (List.mem_filter.mp hy1).1) hxy
        · exact hinj x (List.mem_append_right _ (List.mem_filter.mp hx1).1)
            y (List.mem_append_left _ (List.mem_filter.mp hy1).1) hxy
        · exact hinj x (List.mem_append_right _ (List.mem_filter.mp hx1).1)
            y (List.mem_append_right _ (List.mem_filter.mp hy1).1) hxy
      have hcfp : ∀ p ∈ imgs, env.compressFails p 15 = false := by
        intro p hp
        rw [hpages] at hp
        obtain ⟨i, hi, rfl⟩ := List.mem_map.mp hp
        rcases List.mem_append.mp hi with hi1 | hi1
        · exact hcf15 i (List.mem_append_left _ (List.mem_filter.mp hi1).1)
        · exact hcf15 i (List.mem_append_right _ (List.mem_filter.mp hi1).1)
      obtain ⟨wx, hexloop, hwrx, _, _, _, _⟩ := extremeLoop_no_failures env dir imgs
        (writeOutput imgs w3) hcfp hndimgs
      have hrun := compress_pdf_run_over env input_path output_path target ip fq rq fd rd
        w w2 w3 wx _ _ imgs hin hmag hc1 hc2 hne hsz hexloop
      rw [hrun] at h
      injection h with h1 h2
      right
      rw [← h2]
      simp [writeOutput, hw3w]
      rw [hwrx]
      simp [writeOutput, hw3w]

theorem reassembler_preserves_page_order_witness :
    (⟨[("tmp/page_0.jpg", ⟨0, 200, 85, [(85, true)]⟩)], [["tmp/page_0.jpg"]],
        true⟩ : World).writes =
      wEmpty.writes ++ [tierImages envOk (importantRange envOk 5) ++
        tierImages envOk (remainingRange envOk 5)] ∨
    (⟨[("tmp/page_0.jpg", ⟨0, 200, 85, [(85, true)]⟩)], [["tmp/page_0.jpg"]],
        true⟩ : World).writes =
      wEmpty.writes ++ [tierImages envOk (importantRange envOk 5) ++
        tierImages envOk (remainingRange envOk 5),
        tierImages envOk (importantRange envOk 5) ++
        tierImages envOk (remainingRange envOk 5)] :=
  (reassembler_preserves_page_order envOk "in.pdf" "out.pdf" 1 5 85 25 200 35 wEmpty
    rfl rfl (by decide) (by decide) (by decide) (by decide) (by decide) (by decide)).2
    true 0 ⟨[("tmp/page_0.jpg", ⟨0, 200, 85, [(85, true)]⟩)], [["tmp/page_0.jpg"]], true⟩
    (by decide)

end PdfCompressor
